import Mathlib

/-!
Verification of the power-loss-recovery checkpointing module (`pfprs.py`,
class `PowerLossRecovery`) against its natural-language specification.

The Python source is shallowly embedded below.  Machine real numbers
(Python floats) are modelled as rationals `ℚ`; Python `int` values are
modelled as `ℤ` or `ℕ` as appropriate; Python dictionaries holding a fixed
set of keys are modelled as structures; `None`-able values are modelled
with `Option`.  Mutation of the `self` object is modelled by explicit
state passing over a `PLRState` record.
-/

set_option maxHeartbeats 1000000

namespace PFPRS

/-- Python `int(x)` on a float: truncation toward zero. -/
def pyTrunc (q : ℚ) : ℤ :=
  if 0 ≤ q then ⌊q⌋ else ⌈q⌉

/-- Python `round(x)` on a float: round half to even (banker's rounding). -/
def pyRound (q : ℚ) : ℤ :=
  let f := ⌊q⌋
  let r := q - (f : ℚ)
  if r < 1/2 then f
  else if 1/2 < r then f + 1
  else if Even f then f else f + 1

/-- Python `round(x, 2)`: round to two decimal places (half to even). -/
def pyRound2 (q : ℚ) : ℚ := ((pyRound (q * 100) : ℚ)) / 100

/-- Result of `_get_move_buffer_status` (`mcu_status` entry of a saved state):
`moves_pending`, `min_move_time`, `max_move_time`. -/
structure MCUStatus where
  moves_pending : ℕ
  min_move_time : ℚ
  max_move_time : ℚ
deriving DecidableEq, Inhabited

/-- The state dictionary built by `_collect_current_state`.  The fixed key
set of the Python dict becomes the fields below; the `mcu_status` key,
which is absent at collection time and only attached by
`_save_current_state`, becomes an `Option` field (`none` = key absent). -/
structure Snapshot where
  posX : ℚ
  posY : ℚ
  posZ : ℚ
  xyz_offsets_x : ℚ
  xyz_offsets_y : ℚ
  xyz_offsets_z : ℚ
  layer : ℤ
  layer_height : ℚ
  file_position : ℤ
  total_size : ℤ
  progress_pct : ℚ
  active_extruder : String
  hotend_temp : ℚ
  bed_temp : ℚ
  chamber_temp : ℚ
  save_time : ℚ
  collection_time : ℚ
  current_file : String
  mcu_status : Option MCUStatus
deriving DecidableEq, Inhabited

/-- Configuration values read in `__init__` (the options the checkpointing
core uses).  Config bounds: `save_interval ∈ [0, 300]`,
`history_size ∈ [2, 20]`, `save_delay ∈ [0, history_size - 1]`. -/
structure Config where
  save_interval : ℚ
  save_on_layer : Bool
  history_size : ℕ
  save_delay : ℕ
  extruders : List String
  chamber_heater_name : String
  restart_gcode_lines : List String
deriving DecidableEq

/-- Derived flag `self.time_based_enabled = self.save_interval > 0` (from
`__init__`). -/
def Config.time_based_enabled (cfg : Config) : Bool :=
  decide (0 < cfg.save_interval)

/-- External collaborator readings used by one scheduler iteration:
`toolhead.get_last_move_time()`, `mcu.estimated_print_time(eventtime)`,
the move-buffer status, and `reactor.monotonic()`.  The `_ok` flags model
whether the corresponding provider lookups succeed (a `False` flag is the
exception path of the enclosing `try`). -/
structure Externals where
  print_time : ℚ
  est_print_time : ℚ
  mcu : MCUStatus
  now : ℚ
  delay_ok : Bool
  optimize_ok : Bool
deriving DecidableEq

/-- The mutable `self` fields of `PowerLossRecovery` that the
checkpointing core reads and writes.  `persisted` models the value stored
under the `resume_meta_info` variable (`none` = no valid checkpoint
stored, which also models the `{}` written by `_reset_state`). -/
structure PLRState where
  is_active : Bool
  resuming_print : Bool
  power_loss_recovery_enabled : Bool
  save_variables_ok : Bool
  state_history : List Snapshot
  persisted : Option Snapshot
  last_save_time : ℚ
  consecutive_failures : ℕ
  last_save_attempt : ℚ
  last_layer : Option ℤ
  current_z_height : ℚ
  last_layer_change_time : ℚ
  last_extruder_change_time : ℚ
deriving DecidableEq

/-- The value checks of `_verify_state`.  The presence/type checks of the
Python dict are enforced structurally by the `Snapshot` type; the
remaining logical constraints are checked here in source order. -/
def verify_state (extruders : List String) (s : Snapshot) : Bool :=
  (0 ≤ s.total_size) &&
  (0 ≤ s.progress_pct && s.progress_pct ≤ 100) &&
  (0 ≤ s.layer) &&
  (-27315/100 ≤ s.hotend_temp && s.hotend_temp ≤ 500) &&
  (-27315/100 ≤ s.bed_temp && s.bed_temp ≤ 200) &&
  (-27315/100 ≤ s.chamber_temp && s.chamber_temp ≤ 100) &&
  (extruders.contains s.active_extruder)

/-- The progress-percentage computation of `_collect_current_state`:
`progress = (file_position / file_size * 100) if file_size > 0 else 0`
followed by `round(progress, 2)`. -/
def collect_progress_pct (file_position file_size : ℤ) : ℚ :=
  if 0 < file_size then pyRound2 ((file_position : ℚ) / (file_size : ℚ) * 100)
  else 0

/-- Modelled from the spec's words (for comparison with
`collect_progress_pct`): percentage derived as `position/total_size*100`,
clamped to `[0, 100]`, and `0` when `total_size` is `0`. -/
def spec_clamped_pct (file_position file_size : ℤ) : ℚ :=
  if file_size = 0 then 0
  else max 0 (min 100 ((file_position : ℚ) / (file_size : ℚ) * 100))

/-- Source `_calculate_optimal_delay`.  Here `ok = false` models a failing provider
lookup inside the `try`; a `save_interval` of zero raises
`ZeroDivisionError`; both exception paths return `self.save_delay`. -/
def calculate_optimal_delay (ok : Bool) (print_time est_print_time save_interval : ℚ)
    (history_size save_delay : ℕ) : ℤ :=
  if ok = false ∨ save_interval = 0 then (save_delay : ℤ)
  else
    let mcu_lag := print_time - est_print_time
    let needed_intervals := max 1 (pyTrunc (mcu_lag / save_interval) + 1)
    min needed_intervals ((history_size : ℤ) - 1)

/-- Source `_optimize_background_interval`.  Here `ok = false` models an internal
exception, whose handler returns `self.save_interval` unmodified.
`time_since_extruder_change` is `reactor.monotonic() -
self._last_extruder_change_time`; `hist` is `self.state_history`. -/
def optimize_background_interval (save_interval : ℚ) (time_since_extruder_change : ℚ)
    (hist : List Snapshot) (ok : Bool) : ℚ :=
  if ok = false then save_interval
  else
    let reduction_factor : ℚ :=
      if time_since_extruder_change < 20 then
        min 1 (3/10 + time_since_extruder_change / 20 * (7/10))
      else 1
    let interval := save_interval * reduction_factor
    let interval :=
      if 2 ≤ hist.length then
        let s0 := hist.getD (hist.length - 2) default
        let s1 := hist.getD (hist.length - 1) default
        let pos_change :=
          |s1.posX - s0.posX| + |s1.posY - s0.posY| + |s1.posZ - s0.posZ|
        let interval := if 10 < pos_change then interval * (3/4) else interval
        let temp_change := |s1.hotend_temp - s0.hotend_temp|
        if 5 < temp_change then interval * (3/4) else interval
      else interval
    let min_interval : ℚ := if time_since_extruder_change < 5 then 3 else 5
    max interval min_interval

/-- The `peek_from_end` view of the history buffer: the `k`-th most recent
entry (`0` = newest), `none` when `k ≥ len` (the spec's "insufficient
history"). -/
def peekFromEnd (hist : List Snapshot) (k : ℕ) : Option Snapshot :=
  hist.reverse[k]?

/-- Source `_save_current_state`.  The early returns mirror the four guards; the
selection block mirrors `history_list = list(self.state_history);
state_to_save = history_list[-(self.save_delay + 1)]`.  `list()` is a
shallow copy, so `state_to_save['mcu_status'] = buffer_status` mutates the
dict still referenced by the deque: this is modelled by `List.set` on
`state_history`.  A negative index whose magnitude exceeds the list length
raises `IndexError`, caught by the enclosing `try` (the `else st`
branch). -/
def save_current_state (cfg : Config) (ext : Externals) (st : PLRState) : PLRState :=
  if st.is_active = false then st
  else if st.resuming_print = true then st
  else if st.power_loss_recovery_enabled = false then st
  else if st.save_variables_ok = false then st
  else
    let optimal_delay := calculate_optimal_delay ext.delay_ok ext.print_time
      ext.est_print_time cfg.save_interval cfg.history_size cfg.save_delay
    if optimal_delay < (st.state_history.length : ℤ) then
      if cfg.save_delay + 1 ≤ st.state_history.length then
        let idx := st.state_history.length - (cfg.save_delay + 1)
        let state_to_save := st.state_history.getD idx default
        let state_to_save := { state_to_save with mcu_status := some ext.mcu }
        let hist := st.state_history.set idx state_to_save
        if verify_state cfg.extruders state_to_save then
          { st with state_history := hist,
                    persisted := some state_to_save,
                    last_save_time := ext.now,
                    consecutive_failures := 0 }
        else
          { st with state_history := hist }
      else st
    else st

/-- Behaviour of `deque(maxlen=history_size).append`: appends, evicting the oldest
entry when the buffer is full. -/
def historyAppend (cap : ℕ) (hist : List Snapshot) (s : Snapshot) : List Snapshot :=
  if hist.length < cap then hist ++ [s] else hist.drop 1 ++ [s]

/-- Inputs of one `_background_task` invocation: the timer `eventtime`,
the `print_stats` state (`printing`), the result of
`_collect_current_state` (`none` on provider failure), and the provider
readings consumed deeper in the call. -/
structure TickInput where
  eventtime : ℚ
  printing : Bool
  collected : Option Snapshot
  ext : Externals
deriving DecidableEq

/-- The local `consecutive_failures` value of `_background_task` after the
activation reset and the collect/verify step. -/
def tickFailures (cfg : Config) (st : PLRState) (inp : TickInput) : ℕ :=
  let cf0 := if inp.printing ≠ st.is_active ∧ inp.printing = true then 0
             else st.consecutive_failures
  match inp.collected with
  | some s => if verify_state cfg.extruders s then 0 else cf0 + 1
  | none => cf0

/-- The activity-transition block of `_background_task`: update
`self.is_active` from the job state and clear the history on
activation. -/
def tickActiveUpdate (st : PLRState) (printing : Bool) : PLRState :=
  if printing ≠ st.is_active then
    if printing then { st with is_active := true, state_history := [] }
    else { st with is_active := false }
  else st

/-- Source `_background_task`.  Returns the state after the tick and whether a
save was attempted (`self._save_current_state` reached).  The
early `return` on the disabled path skips the final
`self._consecutive_failures = consecutive_failures` write-back, and a
successful save's reset of `self._consecutive_failures` is overwritten by
that same write-back, exactly as in the source. -/
def background_task (cfg : Config) (st : PLRState) (inp : TickInput) :
    PLRState × Bool :=
  let st1 := tickActiveUpdate st inp.printing
  if st1.is_active = true then
    if st1.power_loss_recovery_enabled = false then (st1, false)
    else
      let cf2 := tickFailures cfg st inp
      let hist2 :=
        match inp.collected with
        | some s => if verify_state cfg.extruders s then
                      historyAppend cfg.history_size st1.state_history s
                    else st1.state_history
        | none => st1.state_history
      let st2 := { st1 with state_history := hist2 }
      let interval := optimize_background_interval cfg.save_interval
        (inp.ext.now - st2.last_extruder_change_time) st2.state_history
        inp.ext.optimize_ok
      let should_save : Bool :=
        cfg.time_based_enabled && decide (interval ≤ inp.eventtime - st2.last_save_time)
      let backoff : ℚ := (min 30 (2 ^ cf2) : ℕ)
      let should_save : Bool :=
        if 0 < cf2 ∧ inp.eventtime - st.last_save_attempt < backoff then false
        else should_save
      if should_save then
        let st3 := save_current_state cfg inp.ext
          { st2 with last_save_attempt := inp.eventtime }
        ({ st3 with consecutive_failures := cf2 }, true)
      else
        ({ st2 with consecutive_failures := cf2 }, false)
  else
    ({ st1 with consecutive_failures := tickFailures cfg st inp }, false)

/-- The entry points that can mutate the checkpointing state: the
periodic timer tick, the two event handlers, and the G-code commands
`PLR_SAVE_PRINT_STATE`, `PLR_ENABLE`, `PLR_DISABLE`,
`PLR_RESET_PRINT_DATA`. -/
inductive Cmd where
  | tick (inp : TickInput)
  | layerChange (layer : Option ℤ) (layer_height : Option ℚ) (ext : Externals)
  | activateExtruder (ext : Externals)
  | manualSave (ext : Externals)
  | enable
  | disable
  | reset
deriving DecidableEq

/-- Whether a `Cmd` is one of the four save paths of the claim (all of
which call `_save_current_state`). -/
def Cmd.isSavePath : Cmd → Bool
  | .tick _ => true
  | .layerChange _ _ _ => true
  | .activateExtruder _ => true
  | .manualSave _ => true
  | _ => false

/-- One entry-point dispatch: `_background_task`,
`_handle_layer_change`, `_handle_activate_extruder`,
`cmd_PLR_SAVE_PRINT_STATE`, `cmd_PLR_ENABLE`, `cmd_PLR_DISABLE`, and
`cmd_PLR_RESET_PRINT_DATA` / `_reset_state`. -/
def step (cfg : Config) (c : Cmd) (st : PLRState) : PLRState :=
  match c with
  | .tick inp => (background_task cfg st inp).1
  | .layerChange layer layer_height ext =>
      if cfg.save_on_layer = false ∨ st.is_active = false then st
      else
        let st1 := { st with last_layer := layer,
                             last_layer_change_time := ext.now,
                             current_z_height := layer_height.getD st.current_z_height }
        save_current_state cfg ext st1
  | .activateExtruder ext =>
      if st.is_active = false then st
      else save_current_state cfg ext
        { st with last_extruder_change_time := ext.now }
  | .manualSave ext => save_current_state cfg ext st
  | .enable => { st with power_loss_recovery_enabled := true }
  | .disable => { st with power_loss_recovery_enabled := false }
  | .reset =>
      if st.save_variables_ok = false then st
      else { st with persisted := none, last_layer := some 0, last_save_time := 0 }

/-- The state right after `__init__`: flags cleared, counters zeroed,
history empty.  `persisted0` is whatever the variables file already
holds; `save_vars_ok` is whether the `save_variables` module loaded. -/
def initPLRState (persisted0 : Option Snapshot) (save_vars_ok : Bool) : PLRState :=
  { is_active := false
    resuming_print := false
    power_loss_recovery_enabled := false
    save_variables_ok := save_vars_ok
    state_history := []
    persisted := persisted0
    last_save_time := 0
    consecutive_failures := 0
    last_save_attempt := 0
    last_layer := some 0
    current_z_height := 0
    last_layer_change_time := 0
    last_extruder_change_time := 0 }

/-- The copy loop of `_modify_gcode_file`: iterate over the backup's
lines (each line a byte list, newline terminator included),
`current_position += len(line)`, skip while `current_position <
file_position`, write the line otherwise.  `pos` is the running
`current_position`. -/
def pyLineCopy : List (List ℕ) → ℕ → ℕ → List (List ℕ)
  | [], _, _ => []
  | l :: ls, pos, o =>
    let pos2 := pos + l.length
    if pos2 < o then pyLineCopy ls pos2 o
    else l :: pyLineCopy ls pos2 o

/-- The bytes `_modify_gcode_file` copies into the new file after the
sentinel line, for a backup decomposed into lines and a resume byte
offset. -/
def copiedBytes (lines : List (List ℕ)) (o : ℕ) : List ℕ :=
  (pyLineCopy lines 0 o).flatten

/-- How many leading lines the copy loop of `_modify_gcode_file` skips. -/
def pySkipCount : List (List ℕ) → ℕ → ℕ → ℕ
  | [], _, _ => 0
  | l :: ls, pos, o =>
    let pos2 := pos + l.length
    if pos2 < o then pySkipCount ls pos2 o + 1 else 0

/-- The `k`-th line boundary of a backup file: the cumulative byte offset
of the end of its `k`-th line (`bnd lines 0 = 0` is the start of the
file). -/
def bnd (lines : List (List ℕ)) (k : ℕ) : ℕ :=
  ((lines.take k).flatten).length

/-- Modelled from the spec's words (for comparison with `copiedBytes`):
the first line boundary whose cumulative offset is `≥ o`, if any. -/
def firstBoundaryGE (lines : List (List ℕ)) (o : ℕ) : Option ℕ :=
  ((List.range (lines.length + 1)).map (bnd lines)).find? (fun b => decide (o ≤ b))

/-- Modelled from the spec's words (for comparison with `copiedBytes`):
the backup's bytes from the first line boundary `≥ o` through
end-of-file. -/
def spec_splice (lines : List (List ℕ)) (o : ℕ) : List ℕ :=
  match firstBoundaryGE lines o with
  | some b => lines.flatten.drop b
  | none => []

/-- One line written to the new file by `_modify_gcode_file`, as an
abstract instruction (the claims are about which instructions appear in
which order, not about their textual formatting). -/
inductive OutLine where
  | activate (extruder : String)
  | chamberSet (heater : String) (temp : ℚ)
  | zRestore (z : ℚ)
  | restart (line : String)
  | sentinel
  | content (line : List ℕ)
deriving DecidableEq

/-- The lines `_modify_gcode_file` writes before the copied content: the
whole restoration block (extruder activation, optional chamber
temperature, Z restore, configured restart lines) is guarded by
`if self.restart_gcode_lines:`, and the placeholder (sentinel) follows
unconditionally. -/
def preambleOut (cfg : Config) (active_extruder : String) (chamber_temp : ℚ)
    (saved_z : ℚ) : List OutLine :=
  (if cfg.restart_gcode_lines ≠ [] then
    [OutLine.activate active_extruder] ++
    (if 0 < chamber_temp ∧ cfg.chamber_heater_name ≠ "" then
      [OutLine.chamberSet cfg.chamber_heater_name chamber_temp]
     else []) ++
    [OutLine.zRestore saved_z] ++
    cfg.restart_gcode_lines.map OutLine.restart
   else []) ++ [OutLine.sentinel]

/-- Modelled from the spec's words (for comparison with `preambleOut`):
tool activation, conditional chamber temperature, Z move, every
configured on-restart line, then the sentinel — with no outer guard on
the on-restart lines being nonempty. -/
def spec_preamble (cfg : Config) (active_extruder : String) (chamber_temp : ℚ)
    (saved_z : ℚ) : List OutLine :=
  [OutLine.activate active_extruder] ++
  (if 0 < chamber_temp ∧ cfg.chamber_heater_name ≠ "" then
    [OutLine.chamberSet cfg.chamber_heater_name chamber_temp]
   else []) ++
  [OutLine.zRestore saved_z] ++
  cfg.restart_gcode_lines.map OutLine.restart ++
  [OutLine.sentinel]

/-- Everything `_modify_gcode_file` writes to the new file, in order:
the preamble, then the copied backup lines. -/
def rewriteOut (cfg : Config) (active_extruder : String) (chamber_temp : ℚ)
    (saved_z : ℚ) (lines : List (List ℕ)) (o : ℕ) : List OutLine :=
  preambleOut cfg active_extruder chamber_temp saved_z ++
  (pyLineCopy lines 0 o).map OutLine.content

/-- The two file-system names `_modify_gcode_file` touches: the original
gcode path (`orig`) and its `.plr` backup path (`bak`); `none` = file
absent, `some c` = file present with byte content `c`. -/
structure FSPair where
  orig : Option (List ℕ)
  bak : Option (List ℕ)
deriving DecidableEq

/-- The rollback block of `_modify_gcode_file`'s exception handler:
`if os.path.exists(input_file): os.remove(input_file)` then
`if os.path.exists(backup_file): os.rename(backup_file, input_file)`. -/
def rollback (fs : FSPair) : FSPair :=
  let fs1 := if fs.orig.isSome then { fs with orig := none } else fs
  if fs1.bak.isSome then { orig := fs1.bak, bak := none } else fs1

/-- The file-system trace of `_modify_gcode_file` once the rename to the
backup name has succeeded.  `toWrite` are the lines the rewrite would
write; `failAfter = some k` injects a failure after `k` lines have been
written (the exception handler then runs `rollback` and the function
returns `None`, modelled by the `false` flag); `failAfter = none` is the
success path (the backup remains until `_restore_original_gcode`). -/
def modify_gcode_fs (origContent : List ℕ) (toWrite : List (List ℕ))
    (failAfter : Option ℕ) : FSPair × Bool :=
  let afterRename : FSPair := { orig := none, bak := some origContent }
  match failAfter with
  | some k =>
      let atFailure : FSPair :=
        { afterRename with orig := some ((toWrite.take k).flatten) }
      (rollback atFailure, false)
  | none => ({ afterRename with orig := some toWrite.flatten }, true)

/-! ### Concrete data used by witnesses and counterexamples -/

/-- A valid snapshot whose X coordinate tags its position in the
history. -/
def mkSnap (x : ℚ) : Snapshot :=
  { posX := x, posY := 0, posZ := 0
    xyz_offsets_x := 0, xyz_offsets_y := 0, xyz_offsets_z := 0
    layer := 3, layer_height := 1/5
    file_position := 1000, total_size := 2000, progress_pct := 50
    active_extruder := "extruder"
    hotend_temp := 210, bed_temp := 60, chamber_temp := 0
    save_time := 7, collection_time := 7
    current_file := "part.gcode"
    mcu_status := none }

/-- Configuration: capacity 5, configured `save_delay` 1, base interval
30 s. -/
def cfgEx : Config :=
  { save_interval := 30, save_on_layer := true, history_size := 5
    save_delay := 1, extruders := ["extruder"], chamber_heater_name := ""
    restart_gcode_lines := ["G28"] }

/-- Provider readings: an MCU lag of 35 s against a 30 s interval, so the
delay selector computes `min(max(1, int(35/30)+1), 4) = 2`. -/
def extEx : Externals :=
  { print_time := 100, est_print_time := 65
    mcu := { moves_pending := 4, min_move_time := 1, max_move_time := 2 }
    now := 1000, delay_ok := true, optimize_ok := true }

/-- An active, enabled instance whose history holds five valid
snapshots, `mkSnap 4` being the newest. -/
def stEx : PLRState :=
  { is_active := true, resuming_print := false
    power_loss_recovery_enabled := true, save_variables_ok := true
    state_history := [mkSnap 0, mkSnap 1, mkSnap 2, mkSnap 3, mkSnap 4]
    persisted := none, last_save_time := 0, consecutive_failures := 0
    last_save_attempt := 0, last_layer := some 3, current_z_height := 3/5
    last_layer_change_time := 0, last_extruder_change_time := 0 }

/-- A backup file of three 3-byte lines (line boundaries 0, 3, 6, 9). -/
def exLines : List (List ℕ) := [[65, 66, 10], [67, 68, 10], [69, 70, 10]]

/-- Variant of `cfgEx` with no configured on-restart lines. -/
def cfg4 : Config := { cfgEx with restart_gcode_lines := [] }

/-- Variant of `stEx` with one recorded consecutive failure. -/
def st9 : PLRState := { stEx with consecutive_failures := 1 }

/-- A tick at `eventtime = 1` whose collection fails. -/
def inp9 : TickInput :=
  { eventtime := 1, printing := true, collected := none, ext := extEx }

/-- Variant of `stEx` with recovery checkpointing disabled. -/
def st10 : PLRState := { stEx with power_loss_recovery_enabled := false }

/-! ### Helper lemmas -/

theorem pyTrunc_mono {q r : ℚ} (h : q ≤ r) : pyTrunc q ≤ pyTrunc r := by
  unfold pyTrunc
  by_cases hq : 0 ≤ q
  · rw [if_pos hq, if_pos (le_trans hq h)]
    exact Int.floor_le_floor h
  · rw [if_neg hq]
    by_cases hr : 0 ≤ r
    · rw [if_pos hr]
      refine le_trans (Int.ceil_le.mpr ?_) (Int.floor_nonneg.mpr hr)
      exact_mod_cast le_of_not_le hq
    · rw [if_neg hr]
      exact Int.ceil_le_ceil h

theorem pyRound_nonneg {q : ℚ} (h : 0 ≤ q) : 0 ≤ pyRound q := by
  simp only [pyRound]
  have hf : (0 : ℤ) ≤ ⌊q⌋ := Int.floor_nonneg.mpr h
  split
  · exact hf
  · split
    · omega
    · split
      · exact hf
      · omega

theorem pyLineCopy_of_le {ls : List (List ℕ)} {pos o : ℕ} (h : o ≤ pos) :
    pyLineCopy ls pos o = ls := by
  induction ls generalizing pos with
  | nil => rfl
  | cons l ls ih =>
      unfold pyLineCopy
      rw [if_neg (by omega)]
      rw [ih (by omega)]

theorem pyLineCopy_eq_drop (ls : List (List ℕ)) (pos o : ℕ) :
    pyLineCopy ls pos o = ls.drop (pySkipCount ls pos o) := by
  induction ls generalizing pos with
  | nil => rfl
  | cons l ls ih =>
      unfold pyLineCopy pySkipCount
      by_cases h : pos + l.length < o
      · rw [if_pos h, if_pos h, List.drop_succ_cons, ih]
      · rw [if_neg h, if_neg h, List.drop_zero,
            pyLineCopy_of_le (le_of_not_lt h)]

theorem pySkipCount_bytes_lt (ls : List (List ℕ)) (pos o : ℕ) :
    pySkipCount ls pos o = 0 ∨
    pos + ((ls.take (pySkipCount ls pos o)).flatten).length < o := by
  induction ls generalizing pos with
  | nil => exact Or.inl rfl
  | cons l ls ih =>
      unfold pySkipCount
      by_cases h : pos + l.length < o
      · right
        rw [if_pos h]
        rcases ih (pos + l.length) with h0 | hlt
        · rw [h0]
          simpa using h
        · simp only [List.take_succ_cons, List.flatten_cons, List.length_append]
          omega
      · left
        rw [if_neg h]

theorem pySkipCount_next_ge (ls : List (List ℕ)) (pos o : ℕ)
    (h : pySkipCount ls pos o < ls.length) :
    o ≤ pos + ((ls.take (pySkipCount ls pos o + 1)).flatten).length := by
  induction ls generalizing pos with
  | nil => simp at h
  | cons l ls ih =>
      unfold pySkipCount at h ⊢
      by_cases hc : pos + l.length < o
      · rw [if_pos hc] at h ⊢
        have hlen : pySkipCount ls (pos + l.length) o < ls.length := by
          simp only [List.length_cons] at h
          omega
        have := ih (pos + l.length) hlen
        simp only [List.take_succ_cons, List.flatten_cons, List.length_append]
        omega
      · rw [if_neg hc] at h ⊢
        simp only [List.take_succ_cons, List.take_zero, List.flatten_cons,
          List.flatten_nil, List.append_nil]
        omega

theorem bnd_mono (ls : List (List ℕ)) {k k' : ℕ} (h : k ≤ k') :
    bnd ls k ≤ bnd ls k' := by
  unfold bnd
  have hsplit : ls.take k' = ls.take k ++ (ls.drop k).take (k' - k) := by
    rw [← List.take_add]
    congr 1
    omega
  rw [hsplit, List.flatten_append, List.length_append]
  omega

theorem flatten_drop_bnd (lines : List (List ℕ)) (m : ℕ) :
    lines.flatten.drop (bnd lines m) = (lines.drop m).flatten := by
  have hsplit : lines.flatten = (lines.take m).flatten ++ (lines.drop m).flatten := by
    rw [← List.flatten_append, List.take_append_drop]
  rw [hsplit, bnd, List.drop_left]

theorem tickActiveUpdate_persisted (st : PLRState) (b : Bool) :
    (tickActiveUpdate st b).persisted = st.persisted := by
  unfold tickActiveUpdate
  split
  · split <;> rfl
  · rfl

theorem tickActiveUpdate_enabled (st : PLRState) (b : Bool) :
    (tickActiveUpdate st b).power_loss_recovery_enabled =
      st.power_loss_recovery_enabled := by
  unfold tickActiveUpdate
  split
  · split <;> rfl
  · rfl

theorem save_current_state_enabled (cfg : Config) (ext : Externals)
    (st : PLRState) :
    (save_current_state cfg ext st).power_loss_recovery_enabled =
      st.power_loss_recovery_enabled := by
  simp only [save_current_state]
  repeat' split
  all_goals rfl

theorem save_current_state_of_disabled (cfg : Config) (ext : Externals)
    (st : PLRState) (h : st.power_loss_recovery_enabled = false) :
    save_current_state cfg ext st = st := by
  rw [save_current_state]
  repeat' split
  all_goals rfl

theorem background_task_enabled (cfg : Config) (st : PLRState)
    (inp : TickInput) :
    (background_task cfg st inp).1.power_loss_recovery_enabled =
      st.power_loss_recovery_enabled := by
  simp only [background_task]
  repeat' split
  all_goals simp [save_current_state_enabled, tickActiveUpdate_enabled]

theorem background_task_persisted_of_disabled (cfg : Config) (st : PLRState)
    (inp : TickInput) (h : st.power_loss_recovery_enabled = false) :
    (background_task cfg st inp).1.persisted = st.persisted := by
  have h1 : (tickActiveUpdate st inp.printing).power_loss_recovery_enabled
      = false := by
    rw [tickActiveUpdate_enabled]
    exact h
  simp only [background_task]
  split <;> simp [h1, tickActiveUpdate_persisted]

theorem getD_eq_peekFromEnd (hist : List Snapshot) (k : ℕ)
    (h : k + 1 ≤ hist.length) :
    some (hist.getD (hist.length - (k + 1)) default) = peekFromEnd hist k := by
  unfold peekFromEnd
  rw [List.getElem?_reverse (by omega)]
  have hidx : hist.length - 1 - k = hist.length - (k + 1) := by omega
  rw [hidx, List.getD_eq_getElem?_getD, List.getElem?_eq_getElem (by omega)]
  simp [List.getD_eq_getElem?_getD, List.getElem?_eq_getElem (show hist.length - (k+1) < hist.length by omega)]

/-- The delay the selector computes for `extEx` against `cfgEx`:
`min(max(1, int(35/30) + 1), 4) = 2`. -/
theorem calcEx : calculate_optimal_delay true 100 65 30 5 1 = 2 := by
  rw [calculate_optimal_delay]
  norm_num
  rw [pyTrunc, if_pos (by norm_num)]
  norm_num [Int.floor_eq_iff]

/-- The selected `mkSnap 3`, extended with the move-buffer status, passes
`_verify_state`. -/
theorem verifyEx :
    verify_state cfgEx.extruders
      { mkSnap 3 with mcu_status := some extEx.mcu } = true := by
  simp only [verify_state, cfgEx, mkSnap]
  norm_num

/-- Full evaluation of `_save_current_state` on the concrete instance:
the entry at Python index `-(save_delay + 1) = -2` (the second newest,
`mkSnap 3`) is mutated in place and persisted. -/
theorem saveEx_eval :
    save_current_state cfgEx extEx stEx =
      { stEx with
          state_history := [mkSnap 0, mkSnap 1, mkSnap 2,
            { mkSnap 3 with mcu_status := some extEx.mcu }, mkSnap 4],
          persisted := some { mkSnap 3 with mcu_status := some extEx.mcu },
          last_save_time := 1000,
          consecutive_failures := 0 } := by
  have hcalc : calculate_optimal_delay extEx.delay_ok extEx.print_time
      extEx.est_print_time cfgEx.save_interval cfgEx.history_size
      cfgEx.save_delay = 2 := calcEx
  rw [save_current_state]
  rw [if_neg (by rw [show stEx.is_active = true from rfl]; simp)]
  rw [if_neg (by rw [show stEx.resuming_print = false from rfl]; simp)]
  rw [if_neg (by rw [show stEx.power_loss_recovery_enabled = true from rfl]; simp)]
  rw [if_neg (by rw [show stEx.save_variables_ok = true from rfl]; simp)]
  rw [hcalc]
  rw [if_pos (by rw [show stEx.state_history.length = 5 from rfl]; norm_num)]
  rw [if_pos (by
    rw [show stEx.state_history.length = 5 from rfl,
      show cfgEx.save_delay = 1 from rfl]
    norm_num)]
  rw [if_pos (by
    rw [show stEx.state_history.length - (cfgEx.save_delay + 1) = 3 from rfl]
    rw [show stEx.state_history.getD 3 default = mkSnap 3 from rfl]
    exact verifyEx)]
  rw [show stEx.state_history.length - (cfgEx.save_delay + 1) = 3 from rfl]
  rw [show stEx.state_history.getD 3 default = mkSnap 3 from rfl]
  rw [show stEx.state_history.set 3 { mkSnap 3 with mcu_status := some extEx.mcu }
      = [mkSnap 0, mkSnap 1, mkSnap 2,
          { mkSnap 3 with mcu_status := some extEx.mcu }, mkSnap 4] from rfl]
  rw [show extEx.now = 1000 from rfl]

/-! ### Claim theorems -/

/-- C1 counterexample: with configured `save_delay = 1` the delay
selector computes 2 for a 35 s lag, the availability check passes
(5 > 2), yet the persisted checkpoint is the second-newest entry
(`mkSnap 3`, X = 3), not the entry at the computed index 2 from the
newest (`mkSnap 2`, X = 2). -/
theorem C1_counterexample :
    calculate_optimal_delay extEx.delay_ok extEx.print_time extEx.est_print_time
      cfgEx.save_interval cfgEx.history_size cfgEx.save_delay = 2 ∧
    stEx.state_history.length = 5 ∧
    (save_current_state cfgEx extEx stEx).persisted.map Snapshot.posX = some 3 ∧
    (peekFromEnd stEx.state_history 2).map Snapshot.posX = some 2 ∧
    (save_current_state cfgEx extEx stEx).persisted.map Snapshot.posX ≠
      (peekFromEnd stEx.state_history 2).map Snapshot.posX := by
  have hpers : (save_current_state cfgEx extEx stEx).persisted =
      some { mkSnap 3 with mcu_status := some extEx.mcu } := by
    rw [saveEx_eval]
  have hpeek : peekFromEnd stEx.state_history 2 = some (mkSnap 2) := rfl
  refine ⟨calcEx, rfl, ?_, ?_, ?_⟩
  · rw [hpers]
    rfl
  · rw [hpeek]
    rfl
  · rw [hpers, hpeek]
    norm_num [mkSnap]

/-- C1 amended: when the scheduler decides to save, the buffer holds more
entries than the delay computed by the selector, and the buffer holds at
least `save_delay + 1` entries, the persisted checkpoint is the entry at
the **configured** `save_delay`'s 0-based index from the newest (extended
with the move-buffer status); the computed delay only gates
availability. -/
theorem C1_selection_uses_configured_delay (cfg : Config) (ext : Externals)
    (st : PLRState) (sel : Snapshot)
    (hact : st.is_active = true) (hres : st.resuming_print = false)
    (hen : st.power_loss_recovery_enabled = true)
    (hsv : st.save_variables_ok = true)
    (havail : calculate_optimal_delay ext.delay_ok ext.print_time
      ext.est_print_time cfg.save_interval cfg.history_size cfg.save_delay <
      (st.state_history.length : ℤ))
    (hlen : cfg.save_delay + 1 ≤ st.state_history.length)
    (hsel : peekFromEnd st.state_history cfg.save_delay = some sel)
    (hvalid : verify_state cfg.extruders
      { sel with mcu_status := some ext.mcu } = true) :
    (save_current_state cfg ext st).persisted =
      some { sel with mcu_status := some ext.mcu } := by
  have hget : st.state_history.getD
      (st.state_history.length - (cfg.save_delay + 1)) default = sel := by
    have h := getD_eq_peekFromEnd st.state_history cfg.save_delay hlen
    rw [hsel] at h
    exact Option.some.inj h
  rw [save_current_state]
  rw [if_neg (by rw [hact]; simp)]
  rw [if_neg (by rw [hres]; simp)]
  rw [if_neg (by rw [hen]; simp)]
  rw [if_neg (by rw [hsv]; simp)]
  rw [if_pos havail, if_pos hlen]
  simp only [hget]
  rw [if_pos hvalid]

/-- C1 amended witness: on the concrete instance the persisted
checkpoint is `mkSnap 3` (the second newest, configured delay 1)
extended with the buffer status. -/
theorem C1_selection_uses_configured_delay_witness :
    (save_current_state cfgEx extEx stEx).persisted =
      some { mkSnap 3 with mcu_status := some extEx.mcu } :=
  C1_selection_uses_configured_delay cfgEx extEx stEx (mkSnap 3) rfl rfl rfl rfl
    (by show calculate_optimal_delay true 100 65 30 5 1 < ((5 : ℕ) : ℤ)
        rw [calcEx]
        norm_num)
    (by decide) rfl verifyEx

/-- C5 (code bug): `list(self.state_history)` is a shallow copy, so
attaching `mcu_status` to the selected state mutates the entry still held
by the history buffer: after the save attempt the buffer's entry at index
3 carries the `mcu_status` key it did not have before, and the history is
no longer equal to its pre-save value. -/
theorem C5_save_mutates_history_entry :
    ((save_current_state cfgEx extEx stEx).state_history.getD 3
        default).mcu_status = some extEx.mcu ∧
    (stEx.state_history.getD 3 default).mcu_status = none ∧
    (save_current_state cfgEx extEx stEx).state_history ≠
      stEx.state_history := by
  have h1 : ((save_current_state cfgEx extEx stEx).state_history.getD 3
      default).mcu_status = some extEx.mcu := by
    rw [saveEx_eval]
    rfl
  have h2 : (stEx.state_history.getD 3 default).mcu_status = none := rfl
  refine ⟨h1, h2, ?_⟩
  intro heq
  rw [heq, h2] at h1
  exact Option.noConfusion h1

/-- C2 counterexample: with a backup of three 3-byte lines (boundaries
0, 3, 6, 9) and resume offset 4, the copy loop emits the whole line
straddling the cut, i.e. the bytes from boundary 3, whereas the claim
(bytes from the first boundary `≥ 4`, which is 6) would give only the
last line. -/
theorem C2_counterexample :
    copiedBytes exLines 4 = [67, 68, 10, 69, 70, 10] ∧
    spec_splice exLines 4 = [69, 70, 10] ∧
    copiedBytes exLines 4 ≠ spec_splice exLines 4 := by
  refine ⟨by decide, by decide, by decide⟩

/-- C2 amended: the bytes the rewrite copies after the sentinel equal the
backup's bytes from line boundary `b` through end-of-file, where `b` is
the greatest line boundary strictly below the resume offset `o` (and
`b = 0` when `o = 0`): the line straddling the cut is copied in full,
from its beginning. -/
theorem C2_copy_from_greatest_boundary_below (lines : List (List ℕ)) (o : ℕ) :
    copiedBytes lines o = lines.flatten.drop (bnd lines (pySkipCount lines 0 o)) ∧
    (0 < o → bnd lines (pySkipCount lines 0 o) < o) ∧
    (∀ k, bnd lines k < o → bnd lines k ≤ bnd lines (pySkipCount lines 0 o)) := by
  refine ⟨?_, ?_, ?_⟩
  · rw [flatten_drop_bnd, copiedBytes, pyLineCopy_eq_drop]
  · intro ho
    rcases pySkipCount_bytes_lt lines 0 o with h0 | hlt
    · rw [h0]
      simpa [bnd] using ho
    · simpa [bnd] using hlt
  · intro k hk
    by_cases hm : pySkipCount lines 0 o < lines.length
    · have hnext : o ≤ bnd lines (pySkipCount lines 0 o + 1) := by
        simpa [bnd] using pySkipCount_next_ge lines 0 o hm
      rcases le_or_lt k (pySkipCount lines 0 o) with hle | hgt
      · exact bnd_mono lines hle
      · exact absurd hk (not_lt.mpr (le_trans hnext (bnd_mono lines hgt)))
    · push_neg at hm
      rcases le_or_lt k (pySkipCount lines 0 o) with hle | hgt
      · exact bnd_mono lines hle
      · have h1 : lines.take k = lines := List.take_of_length_le (by omega)
        have h2 : lines.take (pySkipCount lines 0 o) = lines :=
          List.take_of_length_le hm
        unfold bnd
        rw [h1, h2]

/-- C2 amended witness at the concrete backup `exLines` with offset 4:
the skipped-byte boundary is 3, it is below 4, and the boundary 3 (index
1) is the greatest one below the offset. -/
theorem C2_copy_from_greatest_boundary_below_witness :
    copiedBytes exLines 4 =
      exLines.flatten.drop (bnd exLines (pySkipCount exLines 0 4)) ∧
    bnd exLines (pySkipCount exLines 0 4) < 4 ∧
    bnd exLines 1 ≤ bnd exLines (pySkipCount exLines 0 4) :=
  ⟨(C2_copy_from_greatest_boundary_below exLines 4).1,
   (C2_copy_from_greatest_boundary_below exLines 4).2.1 (by decide),
   (C2_copy_from_greatest_boundary_below exLines 4).2.2 1 (by decide)⟩

/-- C3: if any step of the file rewrite fails after the original file was
renamed to its backup name, the operation reports failure and the file
system is restored to exactly its pre-call state: the original name
present with the original content, and no backup file remaining. -/
theorem C3_rewrite_failure_rolls_back (origContent : List ℕ)
    (toWrite : List (List ℕ)) (k : ℕ) :
    modify_gcode_fs origContent toWrite (some k)
      = ({ orig := some origContent, bak := none }, false) := by
  unfold modify_gcode_fs rollback
  simp

/-- C4 counterexample: with no on-restart lines configured, the rewrite
writes only the sentinel before the copied content — no tool activation
and no Z move — contradicting "regardless of whether any on-restart lines
are configured". -/
theorem C4_counterexample :
    preambleOut cfg4 "extruder" 0 5 = [OutLine.sentinel] ∧
    spec_preamble cfg4 "extruder" 0 5 =
      [OutLine.activate "extruder", OutLine.zRestore 5, OutLine.sentinel] ∧
    preambleOut cfg4 "extruder" 0 5 ≠ spec_preamble cfg4 "extruder" 0 5 := by
  refine ⟨?_, ?_, ?_⟩ <;> simp [preambleOut, spec_preamble, cfg4, cfgEx]

/-- C4 amended: the restoration preamble (tool activation, conditional
chamber temperature, controlled Z move, on-restart lines, sentinel, in
that order, before any copied content) is written only when at least one
on-restart line is configured; with none configured, only the sentinel
precedes the copied content. -/
theorem C4_preamble_guarded_by_restart_lines (cfg : Config) (e : String)
    (t z : ℚ) (lines : List (List ℕ)) (o : ℕ) :
    (cfg.restart_gcode_lines ≠ [] →
      rewriteOut cfg e t z lines o =
        spec_preamble cfg e t z ++ (pyLineCopy lines 0 o).map OutLine.content) ∧
    (cfg.restart_gcode_lines = [] →
      rewriteOut cfg e t z lines o =
        OutLine.sentinel :: (pyLineCopy lines 0 o).map OutLine.content) := by
  constructor <;> intro h <;>
    simp [rewriteOut, preambleOut, spec_preamble, h]

/-- C4 amended witness: with the single on-restart line of `cfgEx`, the
rewrite output is exactly the spec-shaped preamble followed by the copied
content. -/
theorem C4_preamble_guarded_by_restart_lines_witness :
    rewriteOut cfgEx "extruder" 0 5 exLines 4 =
      spec_preamble cfgEx "extruder" 0 5 ++
        (pyLineCopy exLines 0 4).map OutLine.content :=
  (C4_preamble_guarded_by_restart_lines cfgEx "extruder" 0 5 exLines 4).1
    (by simp [cfgEx])

/-- C6 counterexample: the collector computes the percentage with no
upper clamp — at position 200 of a 100-byte file it reports 200 %,
where the spec's clamped formula gives 100. -/
theorem C6_counterexample :
    collect_progress_pct 200 100 = 200 ∧
    spec_clamped_pct 200 100 = 100 ∧
    collect_progress_pct 200 100 ≠ spec_clamped_pct 200 100 := by
  have h1 : collect_progress_pct 200 100 = 200 := by
    rw [collect_progress_pct, if_pos (by norm_num)]
    have h200 : ((200 : ℤ) : ℚ) / ((100 : ℤ) : ℚ) * 100 = 200 := by norm_num
    rw [h200, pyRound2, pyRound]
    norm_num
  have h2 : spec_clamped_pct 200 100 = 100 := by
    rw [spec_clamped_pct, if_neg (by norm_num)]
    norm_num
  exact ⟨h1, h2, by rw [h1, h2]; norm_num⟩

/-- C6 amended: the collector's percentage is `position/total_size*100`
rounded to two decimals when `total_size > 0` and `0` otherwise; it is
never negative for a nonnegative position, but it is not clamped above
100 — out-of-range values are instead rejected by the validator. -/
theorem C6_pct_nonneg_unclamped (pos size : ℤ) (extruders : List String)
    (s : Snapshot) :
    (0 ≤ pos → 0 ≤ collect_progress_pct pos size) ∧
    (size ≤ 0 → collect_progress_pct pos size = 0) ∧
    (100 < s.progress_pct → verify_state extruders s = false) := by
  refine ⟨?_, ?_, ?_⟩
  · intro hpos
    rw [collect_progress_pct]
    split
    · rename_i hsz
      rw [pyRound2]
      have hq : (0 : ℚ) ≤ (pos : ℚ) / (size : ℚ) * 100 := by
        have : (0 : ℚ) ≤ (pos : ℚ) / (size : ℚ) := by
          apply div_nonneg <;> [exact_mod_cast hpos; exact_mod_cast le_of_lt hsz]
        linarith
      have := pyRound_nonneg (q := (pos : ℚ) / (size : ℚ) * 100 * 100) (by linarith)
      have hcast : (0 : ℚ) ≤ ((pyRound ((pos : ℚ) / (size : ℚ) * 100 * 100)) : ℚ) := by
        exact_mod_cast this
      linarith
    · exact le_refl 0
  · intro hsz
    rw [collect_progress_pct, if_neg (by omega)]
  · intro hpct
    have : ¬ (s.progress_pct ≤ 100) := not_le.mpr hpct
    simp [verify_state, this]

/-- C6 amended witness: at position 50 of a 100-byte file the percentage
is nonnegative, and a snapshot reporting 200 % is rejected by the
validator. -/
theorem C6_pct_nonneg_unclamped_witness :
    0 ≤ collect_progress_pct 50 100 ∧
    verify_state ["extruder"] { mkSnap 0 with progress_pct := 200 } = false :=
  ⟨(C6_pct_nonneg_unclamped 50 100 ["extruder"] (mkSnap 0)).1 (by norm_num),
   (C6_pct_nonneg_unclamped 50 100 ["extruder"]
      { mkSnap 0 with progress_pct := 200 }).2.2 (by norm_num [mkSnap])⟩

/-- C7: the adaptive interval computation returns at least 3.0 s, at
least 5.0 s whenever no extruder change occurred within the last 5 s, and
on an internal failure it returns the configured base interval
unmodified. -/
theorem C7_interval_floor (save_interval t : ℚ) (hist : List Snapshot) :
    3 ≤ optimize_background_interval save_interval t hist true ∧
    (5 ≤ t → 5 ≤ optimize_background_interval save_interval t hist true) ∧
    optimize_background_interval save_interval t hist false = save_interval := by
  refine ⟨?_, ?_, ?_⟩
  · unfold optimize_background_interval
    simp only [Bool.true_eq_false, if_false]
    refine le_trans ?_ (le_max_right _ _)
    split <;> norm_num
  · intro ht
    unfold optimize_background_interval
    simp only [Bool.true_eq_false, if_false]
    refine le_trans ?_ (le_max_right _ _)
    rw [if_neg (not_lt.mpr (by linarith))]
  · unfold optimize_background_interval
    simp

/-- C7 witness at a concrete input: 6 s after the last extruder change,
the interval never drops below 5 s. -/
theorem C7_interval_floor_witness :
    5 ≤ optimize_background_interval 30 6 [] true :=
  (C7_interval_floor 30 6 []).2.1 (by norm_num)

/-- C8: with the same base interval and history capacity, a larger
measured lag never yields a smaller computed delay, and every computed
delay is at most `history_size - 1`. -/
theorem C8_delay_monotone_and_capped (ok : Bool) (p1 e1 p2 e2 save_interval : ℚ)
    (history_size save_delay : ℕ) (hlag : p1 - e1 ≤ p2 - e2)
    (hsi : 0 ≤ save_interval) (hsd : save_delay < history_size) :
    calculate_optimal_delay ok p1 e1 save_interval history_size save_delay ≤
      calculate_optimal_delay ok p2 e2 save_interval history_size save_delay ∧
    calculate_optimal_delay ok p1 e1 save_interval history_size save_delay ≤
      (history_size : ℤ) - 1 ∧
    calculate_optimal_delay ok p2 e2 save_interval history_size save_delay ≤
      (history_size : ℤ) - 1 := by
  unfold calculate_optimal_delay
  by_cases hex : ok = false ∨ save_interval = 0
  · rw [if_pos hex, if_pos hex]
    refine ⟨le_refl _, ?_, ?_⟩ <;> omega
  · rw [if_neg hex, if_neg hex]
    push_neg at hex
    have hpos : 0 < save_interval := lt_of_le_of_ne hsi (Ne.symm hex.2)
    refine ⟨?_, min_le_right _ _, min_le_right _ _⟩
    refine min_le_min ?_ (le_refl _)
    refine max_le_max (le_refl _) ?_
    have hdiv : (p1 - e1) / save_interval ≤ (p2 - e2) / save_interval := by
      gcongr
    exact add_le_add_right (pyTrunc_mono hdiv) 1

/-- C8 witness at a concrete input: lags 35 s and 100 s with a 30 s
interval and capacity 5 give monotone delays both capped at 4. -/
theorem C8_delay_monotone_and_capped_witness :
    calculate_optimal_delay true 100 65 30 5 1 ≤
      calculate_optimal_delay true 100 0 30 5 1 ∧
    calculate_optimal_delay true 100 65 30 5 1 ≤ 4 ∧
    calculate_optimal_delay true 100 0 30 5 1 ≤ 4 :=
  C8_delay_monotone_and_capped true 100 65 100 0 30 5 1 (by norm_num)
    (by norm_num) (by norm_num)

/-- C9: when the tick has recorded `f ≥ 1` consecutive invalid snapshots
and less than `min(30, 2^f)` seconds have elapsed since the last save
attempt, the tick attempts no save and the persisted checkpoint is
unchanged. -/
theorem C9_backoff_suppresses_save (cfg : Config) (st : PLRState)
    (inp : TickInput) (hf : 1 ≤ tickFailures cfg st inp)
    (hel : inp.eventtime - st.last_save_attempt <
      ((min 30 (2 ^ tickFailures cfg st inp) : ℕ) : ℚ)) :
    (background_task cfg st inp).2 = false ∧
    (background_task cfg st inp).1.persisted = st.persisted := by
  have hcond : 0 < tickFailures cfg st inp ∧
      inp.eventtime - st.last_save_attempt <
        ((min 30 (2 ^ tickFailures cfg st inp) : ℕ) : ℚ) := ⟨hf, hel⟩
  constructor
  · simp only [background_task]
    rw [if_pos hcond]
    simp only [Bool.false_eq_true, if_false]
    repeat' split
    all_goals rfl
  · simp only [background_task]
    rw [if_pos hcond]
    simp only [Bool.false_eq_true, if_false]
    repeat' split
    all_goals simp [tickActiveUpdate_persisted]

/-- C9 witness: with one consecutive failure, a tick 1 s after the last
save attempt (backoff `min(30, 2) = 2` s) attempts no save. -/
theorem C9_backoff_suppresses_save_witness :
    (background_task cfgEx st9 inp9).2 = false :=
  (C9_backoff_suppresses_save cfgEx st9 inp9 (by decide)
    (by show (1 : ℚ) - 0 < ((min 30 (2 ^ 1) : ℕ) : ℚ)
        norm_num)).1

/-- C10: after construction the recovery-checkpointing flag is false;
while it is false, none of the four save paths (tick, layer change,
extruder activation, manual save) writes the persisted checkpoint; and
the only command that makes the flag true is the explicit enable
command. -/
theorem C10_disabled_until_enable (cfg : Config) :
    (∀ p0 v, (initPLRState p0 v).power_loss_recovery_enabled = false) ∧
    (∀ c st, st.power_loss_recovery_enabled = false → c.isSavePath = true →
      (step cfg c st).persisted = st.persisted) ∧
    (∀ c st, (step cfg c st).power_loss_recovery_enabled = true →
      c = Cmd.enable ∨ st.power_loss_recovery_enabled = true) := by
  refine ⟨fun p0 v => rfl, ?_, ?_⟩
  · intro c st h hsp
    cases c with
    | tick inp => exact background_task_persisted_of_disabled cfg st inp h
    | layerChange layer height ext =>
        simp only [step]
        split
        · rfl
        · rw [save_current_state_of_disabled cfg ext
            { st with last_layer := layer,
                      last_layer_change_time := ext.now,
                      current_z_height := height.getD st.current_z_height } h]
    | activateExtruder ext =>
        simp only [step]
        split
        · rfl
        · rw [save_current_state_of_disabled cfg ext
            { st with last_extruder_change_time := ext.now } h]
    | manualSave ext =>
        simp only [step]
        rw [save_current_state_of_disabled cfg ext st h]
    | enable => simp [Cmd.isSavePath] at hsp
    | disable => simp [Cmd.isSavePath] at hsp
    | reset => simp [Cmd.isSavePath] at hsp
  · intro c st h
    cases c with
    | enable => exact Or.inl rfl
    | disable =>
        refine absurd ?_ (by simp : ¬(false = true))
        simpa only [step] using h
    | reset =>
        refine Or.inr ?_
        simp only [step] at h
        split at h
        · exact h
        · exact h
    | tick inp =>
        refine Or.inr ?_
        simp only [step] at h
        rw [background_task_enabled] at h
        exact h
    | layerChange layer height ext =>
        refine Or.inr ?_
        simp only [step] at h
        split at h
        · exact h
        · rw [save_current_state_enabled] at h
          exact h
    | activateExtruder ext =>
        refine Or.inr ?_
        simp only [step] at h
        split at h
        · exact h
        · rw [save_current_state_enabled] at h
          exact h
    | manualSave ext =>
        refine Or.inr ?_
        simp only [step] at h
        rw [save_current_state_enabled] at h
        exact h

/-- C10 witness: the flag starts false, a manual save with the flag
false leaves the persisted checkpoint unchanged, and the enable command
is covered by the left disjunct. -/
theorem C10_disabled_until_enable_witness :
    (initPLRState none true).power_loss_recovery_enabled = false ∧
    (step cfgEx (Cmd.manualSave extEx) st10).persisted = st10.persisted ∧
    (Cmd.enable = Cmd.enable ∨ st10.power_loss_recovery_enabled = true) :=
  ⟨(C10_disabled_until_enable cfgEx).1 none true,
   (C10_disabled_until_enable cfgEx).2.1 (Cmd.manualSave extEx) st10 rfl rfl,
   (C10_disabled_until_enable cfgEx).2.2 Cmd.enable st10 rfl⟩

end PFPRS
